import Mathlib

/-!
# Unified error codes (`appErrorCode.h`, `appErrorCode.c`)

A shallow embedding of the error-code vocabulary and of its five query
functions.  An `app_err_t` is a C `uint32_t`; it is represented by a natural
number, and the theorems that depend on the width carry the bound
`c < 2 ^ 32`.  The only operations the code applies to a code are `&`, `|`,
`>>` and `==`, none of which can overflow.

Strings (`const char *`, never null in this code) are Lean `String`s.  The one
piece of mutable memory is the buffer `unknownStr` of `app_Err_ToString`:
`app_Err_ToString_call` passes its contents explicitly and returns the
pointer, and `app_Err_ToString` is the text found at that pointer when the
call returns.
-/

namespace ErrorCode

/-! ## `appErrorCode.h`: masks, modules, categories -/

/-- The C type `app_err_t` (`typedef uint32_t app_err_t`). -/
abbrev app_err_t := Nat

def APP_ERR_MODULE_BASE : Nat := 0x00000000
def APP_ERR_MODULE_MASK : Nat := 0xFF000000

def APP_ERR_MODULE_SYSTEM : Nat := 0x00000000
def APP_ERR_MODULE_COMM : Nat := 0x01000000
def APP_ERR_MODULE_PROTOCOL : Nat := 0x02000000
def APP_ERR_MODULE_UART : Nat := 0x03000000
def APP_ERR_MODULE_TIMER : Nat := 0x04000000
def APP_ERR_MODULE_IO : Nat := 0x05000000
def APP_ERR_MODULE_MEMORY : Nat := 0x06000000
def APP_ERR_MODULE_TASK : Nat := 0x07000000
def APP_ERR_MODULE_SENSOR : Nat := 0x08000000
def APP_ERR_MODULE_USER : Nat := 0xFF0000FF

def APP_ERR_CATEGORY_BASE : Nat := 0x00000000
def APP_ERR_CATEGORY_MASK : Nat := 0x00F00000

def APP_ERR_CATEGORY_SUCCESS : Nat := 0x00000000
def APP_ERR_CATEGORY_PARAM : Nat := 0x00100000
def APP_ERR_CATEGORY_STATE : Nat := 0x00200000
def APP_ERR_CATEGORY_TIMEOUT : Nat := 0x00300000
def APP_ERR_CATEGORY_BUSY : Nat := 0x00400000
def APP_ERR_CATEGORY_NOMEM : Nat := 0x00500000
def APP_ERR_CATEGORY_IO : Nat := 0x00600000
def APP_ERR_CATEGORY_CHECKSUM : Nat := 0x00700000
def APP_ERR_CATEGORY_PROTOCOL : Nat := 0x00800000
def APP_ERR_CATEGORY_HARDWARE : Nat := 0x00900000
def APP_ERR_CATEGORY_INTERNAL : Nat := 0x00A00000

/-- The ten module constants of the header, in the order they are defined. -/
def moduleConstants : List Nat :=
  [APP_ERR_MODULE_SYSTEM, APP_ERR_MODULE_COMM, APP_ERR_MODULE_PROTOCOL, APP_ERR_MODULE_UART,
   APP_ERR_MODULE_TIMER, APP_ERR_MODULE_IO, APP_ERR_MODULE_MEMORY, APP_ERR_MODULE_TASK,
   APP_ERR_MODULE_SENSOR, APP_ERR_MODULE_USER]

/-- The eleven category constants of the header, in the order they are defined. -/
def categoryConstants : List Nat :=
  [APP_ERR_CATEGORY_SUCCESS, APP_ERR_CATEGORY_PARAM, APP_ERR_CATEGORY_STATE,
   APP_ERR_CATEGORY_TIMEOUT, APP_ERR_CATEGORY_BUSY, APP_ERR_CATEGORY_NOMEM,
   APP_ERR_CATEGORY_IO, APP_ERR_CATEGORY_CHECKSUM, APP_ERR_CATEGORY_PROTOCOL,
   APP_ERR_CATEGORY_HARDWARE, APP_ERR_CATEGORY_INTERNAL]

/-! ## `appErrorCode.h`: the error constants, each written as in the header -/

def APP_ERR_OK : Nat := 0x00000000

def APP_ERR_NULL_PTR : Nat := APP_ERR_MODULE_SYSTEM ||| APP_ERR_CATEGORY_PARAM ||| 0x001
def APP_ERR_INVALID_PARAM : Nat := APP_ERR_MODULE_SYSTEM ||| APP_ERR_CATEGORY_PARAM ||| 0x002
def APP_ERR_NOT_INIT : Nat := APP_ERR_MODULE_SYSTEM ||| APP_ERR_CATEGORY_STATE ||| 0x001
def APP_ERR_ALREADY_INIT : Nat := APP_ERR_MODULE_SYSTEM ||| APP_ERR_CATEGORY_STATE ||| 0x002
def APP_ERR_NOT_SUPPORTED : Nat := APP_ERR_MODULE_SYSTEM ||| APP_ERR_CATEGORY_PARAM ||| 0x003
def APP_ERR_NO_MEMORY : Nat := APP_ERR_MODULE_SYSTEM ||| APP_ERR_CATEGORY_NOMEM ||| 0x001
def APP_ERR_TIMEOUT : Nat := APP_ERR_MODULE_SYSTEM ||| APP_ERR_CATEGORY_TIMEOUT ||| 0x001
def APP_ERR_BUSY : Nat := APP_ERR_MODULE_SYSTEM ||| APP_ERR_CATEGORY_BUSY ||| 0x001
def APP_ERR_FAIL : Nat := APP_ERR_MODULE_SYSTEM ||| APP_ERR_CATEGORY_INTERNAL ||| 0x001
def APP_ERR_UNKNOWN : Nat := APP_ERR_MODULE_SYSTEM ||| APP_ERR_CATEGORY_INTERNAL ||| 0x002

def APP_ERR_COMM_NOT_INIT : Nat := APP_ERR_MODULE_COMM ||| APP_ERR_CATEGORY_STATE ||| 0x001
def APP_ERR_COMM_TX_BUSY : Nat := APP_ERR_MODULE_COMM ||| APP_ERR_CATEGORY_BUSY ||| 0x001
def APP_ERR_COMM_QUEUE_FULL : Nat := APP_ERR_MODULE_COMM ||| APP_ERR_CATEGORY_NOMEM ||| 0x001
def APP_ERR_COMM_PAYLOAD_TOO_LARGE : Nat :=
  APP_ERR_MODULE_COMM ||| APP_ERR_CATEGORY_PARAM ||| 0x001
def APP_ERR_COMM_INVALID_UART : Nat := APP_ERR_MODULE_COMM ||| APP_ERR_CATEGORY_PARAM ||| 0x002
def APP_ERR_COMM_SEND_FAIL : Nat := APP_ERR_MODULE_COMM ||| APP_ERR_CATEGORY_IO ||| 0x001

def APP_ERR_PROTO_FRAME_TIMEOUT : Nat :=
  APP_ERR_MODULE_PROTOCOL ||| APP_ERR_CATEGORY_TIMEOUT ||| 0x001
def APP_ERR_PROTO_CRC_ERROR : Nat :=
  APP_ERR_MODULE_PROTOCOL ||| APP_ERR_CATEGORY_CHECKSUM ||| 0x001
def APP_ERR_PROTO_INVALID_STATE : Nat :=
  APP_ERR_MODULE_PROTOCOL ||| APP_ERR_CATEGORY_STATE ||| 0x001
def APP_ERR_PROTO_BUFFER_OVERFLOW : Nat :=
  APP_ERR_MODULE_PROTOCOL ||| APP_ERR_CATEGORY_NOMEM ||| 0x001
def APP_ERR_PROTO_INVALID_FRAME : Nat :=
  APP_ERR_MODULE_PROTOCOL ||| APP_ERR_CATEGORY_PROTOCOL ||| 0x001
def APP_ERR_PROTO_INCOMPLETE_FRAME : Nat :=
  APP_ERR_MODULE_PROTOCOL ||| APP_ERR_CATEGORY_PROTOCOL ||| 0x002
def APP_ERR_PROTO_ESCAPE_ERROR : Nat :=
  APP_ERR_MODULE_PROTOCOL ||| APP_ERR_CATEGORY_PROTOCOL ||| 0x003

def APP_ERR_UART_NOT_INIT : Nat := APP_ERR_MODULE_UART ||| APP_ERR_CATEGORY_STATE ||| 0x001
def APP_ERR_UART_TX_BUSY : Nat := APP_ERR_MODULE_UART ||| APP_ERR_CATEGORY_BUSY ||| 0x001
def APP_ERR_UART_TX_TIMEOUT : Nat := APP_ERR_MODULE_UART ||| APP_ERR_CATEGORY_TIMEOUT ||| 0x001
def APP_ERR_UART_RX_ERROR : Nat := APP_ERR_MODULE_UART ||| APP_ERR_CATEGORY_IO ||| 0x001
def APP_ERR_UART_DMA_ERROR : Nat := APP_ERR_MODULE_UART ||| APP_ERR_CATEGORY_HARDWARE ||| 0x001
def APP_ERR_UART_INVALID_CH : Nat := APP_ERR_MODULE_UART ||| APP_ERR_CATEGORY_PARAM ||| 0x001
def APP_ERR_UART_BUFFER_FULL : Nat := APP_ERR_MODULE_UART ||| APP_ERR_CATEGORY_NOMEM ||| 0x001

def APP_ERR_SENSOR_NOT_RESPONDING : Nat :=
  APP_ERR_MODULE_SENSOR ||| APP_ERR_CATEGORY_TIMEOUT ||| 0x001
def APP_ERR_SENSOR_INVALID_DATA : Nat :=
  APP_ERR_MODULE_SENSOR ||| APP_ERR_CATEGORY_PROTOCOL ||| 0x001
def APP_ERR_SENSOR_CHECKSUM : Nat :=
  APP_ERR_MODULE_SENSOR ||| APP_ERR_CATEGORY_CHECKSUM ||| 0x001
def APP_ERR_SENSOR_NOT_FOUND : Nat := APP_ERR_MODULE_SENSOR ||| APP_ERR_CATEGORY_STATE ||| 0x001

/-- The macro `APP_ERR_GET_MODULE(code)`: `((code) & APP_ERR_MODULE_MASK) >> 24`. -/
def APP_ERR_GET_MODULE (code : Nat) : Nat := (code &&& APP_ERR_MODULE_MASK) >>> 24

/-- The macro `APP_ERR_GET_CATEGORY(code)`: `((code) & APP_ERR_CATEGORY_MASK) >> 20`. -/
def APP_ERR_GET_CATEGORY (code : Nat) : Nat := (code &&& APP_ERR_CATEGORY_MASK) >>> 20

/-- The macro `APP_ERR_SUCCESS(code)`: `(code) == APP_ERR_OK`. -/
def APP_ERR_SUCCESS (code : Nat) : Bool := code == APP_ERR_OK

/-- The macro `APP_ERR_FAILED(code)`: `(code) != APP_ERR_OK`. -/
def APP_ERR_FAILED (code : Nat) : Bool := code != APP_ERR_OK

/-- One `#define NAME (MODULE | CATEGORY | discriminator)` line of the header:
the three operands as written, and the constant it defines. -/
structure declared_const where
  module : Nat
  category : Nat
  disc : Nat
  code : Nat
  deriving DecidableEq, Repr

/-- The 34 error constants the header defines as `M | G | d`
(`APP_ERR_NULL_PTR` ... `APP_ERR_SENSOR_NOT_FOUND`), in the order of the
header, each with the operands of its defining expression. -/
def declaredConstants : List declared_const :=
  [⟨APP_ERR_MODULE_SYSTEM, APP_ERR_CATEGORY_PARAM, 0x001, APP_ERR_NULL_PTR⟩,
   ⟨APP_ERR_MODULE_SYSTEM, APP_ERR_CATEGORY_PARAM, 0x002, APP_ERR_INVALID_PARAM⟩,
   ⟨APP_ERR_MODULE_SYSTEM, APP_ERR_CATEGORY_STATE, 0x001, APP_ERR_NOT_INIT⟩,
   ⟨APP_ERR_MODULE_SYSTEM, APP_ERR_CATEGORY_STATE, 0x002, APP_ERR_ALREADY_INIT⟩,
   ⟨APP_ERR_MODULE_SYSTEM, APP_ERR_CATEGORY_PARAM, 0x003, APP_ERR_NOT_SUPPORTED⟩,
   ⟨APP_ERR_MODULE_SYSTEM, APP_ERR_CATEGORY_NOMEM, 0x001, APP_ERR_NO_MEMORY⟩,
   ⟨APP_ERR_MODULE_SYSTEM, APP_ERR_CATEGORY_TIMEOUT, 0x001, APP_ERR_TIMEOUT⟩,
   ⟨APP_ERR_MODULE_SYSTEM, APP_ERR_CATEGORY_BUSY, 0x001, APP_ERR_BUSY⟩,
   ⟨APP_ERR_MODULE_SYSTEM, APP_ERR_CATEGORY_INTERNAL, 0x001, APP_ERR_FAIL⟩,
   ⟨APP_ERR_MODULE_SYSTEM, APP_ERR_CATEGORY_INTERNAL, 0x002, APP_ERR_UNKNOWN⟩,
   ⟨APP_ERR_MODULE_COMM, APP_ERR_CATEGORY_STATE, 0x001, APP_ERR_COMM_NOT_INIT⟩,
   ⟨APP_ERR_MODULE_COMM, APP_ERR_CATEGORY_BUSY, 0x001, APP_ERR_COMM_TX_BUSY⟩,
   ⟨APP_ERR_MODULE_COMM, APP_ERR_CATEGORY_NOMEM, 0x001, APP_ERR_COMM_QUEUE_FULL⟩,
   ⟨APP_ERR_MODULE_COMM, APP_ERR_CATEGORY_PARAM, 0x001, APP_ERR_COMM_PAYLOAD_TOO_LARGE⟩,
   ⟨APP_ERR_MODULE_COMM, APP_ERR_CATEGORY_PARAM, 0x002, APP_ERR_COMM_INVALID_UART⟩,
   ⟨APP_ERR_MODULE_COMM, APP_ERR_CATEGORY_IO, 0x001, APP_ERR_COMM_SEND_FAIL⟩,
   ⟨APP_ERR_MODULE_PROTOCOL, APP_ERR_CATEGORY_TIMEOUT, 0x001, APP_ERR_PROTO_FRAME_TIMEOUT⟩,
   ⟨APP_ERR_MODULE_PROTOCOL, APP_ERR_CATEGORY_CHECKSUM, 0x001, APP_ERR_PROTO_CRC_ERROR⟩,
   ⟨APP_ERR_MODULE_PROTOCOL, APP_ERR_CATEGORY_STATE, 0x001, APP_ERR_PROTO_INVALID_STATE⟩,
   ⟨APP_ERR_MODULE_PROTOCOL, APP_ERR_CATEGORY_NOMEM, 0x001, APP_ERR_PROTO_BUFFER_OVERFLOW⟩,
   ⟨APP_ERR_MODULE_PROTOCOL, APP_ERR_CATEGORY_PROTOCOL, 0x001, APP_ERR_PROTO_INVALID_FRAME⟩,
   ⟨APP_ERR_MODULE_PROTOCOL, APP_ERR_CATEGORY_PROTOCOL, 0x002, APP_ERR_PROTO_INCOMPLETE_FRAME⟩,
   ⟨APP_ERR_MODULE_PROTOCOL, APP_ERR_CATEGORY_PROTOCOL, 0x003, APP_ERR_PROTO_ESCAPE_ERROR⟩,
   ⟨APP_ERR_MODULE_UART, APP_ERR_CATEGORY_STATE, 0x001, APP_ERR_UART_NOT_INIT⟩,
   ⟨APP_ERR_MODULE_UART, APP_ERR_CATEGORY_BUSY, 0x001, APP_ERR_UART_TX_BUSY⟩,
   ⟨APP_ERR_MODULE_UART, APP_ERR_CATEGORY_TIMEOUT, 0x001, APP_ERR_UART_TX_TIMEOUT⟩,
   ⟨APP_ERR_MODULE_UART, APP_ERR_CATEGORY_IO, 0x001, APP_ERR_UART_RX_ERROR⟩,
   ⟨APP_ERR_MODULE_UART, APP_ERR_CATEGORY_HARDWARE, 0x001, APP_ERR_UART_DMA_ERROR⟩,
   ⟨APP_ERR_MODULE_UART, APP_ERR_CATEGORY_PARAM, 0x001, APP_ERR_UART_INVALID_CH⟩,
   ⟨APP_ERR_MODULE_UART, APP_ERR_CATEGORY_NOMEM, 0x001, APP_ERR_UART_BUFFER_FULL⟩,
   ⟨APP_ERR_MODULE_SENSOR, APP_ERR_CATEGORY_TIMEOUT, 0x001, APP_ERR_SENSOR_NOT_RESPONDING⟩,
   ⟨APP_ERR_MODULE_SENSOR, APP_ERR_CATEGORY_PROTOCOL, 0x001, APP_ERR_SENSOR_INVALID_DATA⟩,
   ⟨APP_ERR_MODULE_SENSOR, APP_ERR_CATEGORY_CHECKSUM, 0x001, APP_ERR_SENSOR_CHECKSUM⟩,
   ⟨APP_ERR_MODULE_SENSOR, APP_ERR_CATEGORY_STATE, 0x001, APP_ERR_SENSOR_NOT_FOUND⟩]

/-! ## `appErrorCode.c`: the tables -/

/-- The C struct `app_err_entry_t`. -/
structure app_err_entry_t where
  code : Nat
  name : String
  description : String
  deriving DecidableEq, Repr

/-- The array `s_recoverableErrors`. -/
def s_recoverableErrors : List Nat :=
  [APP_ERR_TIMEOUT,
   APP_ERR_BUSY,
   APP_ERR_COMM_TX_BUSY,
   APP_ERR_COMM_QUEUE_FULL,
   APP_ERR_UART_TX_BUSY,
   APP_ERR_UART_TX_TIMEOUT,
   APP_ERR_PROTO_FRAME_TIMEOUT]

/-- The count `sizeof(s_recoverableErrors) / sizeof(s_recoverableErrors[0])`. -/
def s_recoverableErrorCount : Nat := s_recoverableErrors.length

/-- The array `s_errorTable`. -/
def s_errorTable : List app_err_entry_t :=
  [⟨APP_ERR_OK, "APP_ERR_OK", "Success"⟩,
   ⟨APP_ERR_NULL_PTR, "APP_ERR_NULL_PTR", "Null pointer"⟩,
   ⟨APP_ERR_INVALID_PARAM, "APP_ERR_INVALID_PARAM", "Invalid parameter"⟩,
   ⟨APP_ERR_NOT_INIT, "APP_ERR_NOT_INIT", "Not initialized"⟩,
   ⟨APP_ERR_ALREADY_INIT, "APP_ERR_ALREADY_INIT", "Already initialized"⟩,
   ⟨APP_ERR_NOT_SUPPORTED, "APP_ERR_NOT_SUPPORTED", "Not supported"⟩,
   ⟨APP_ERR_NO_MEMORY, "APP_ERR_NO_MEMORY", "Out of memory"⟩,
   ⟨APP_ERR_TIMEOUT, "APP_ERR_TIMEOUT", "Timeout"⟩,
   ⟨APP_ERR_BUSY, "APP_ERR_BUSY", "Resource busy"⟩,
   ⟨APP_ERR_FAIL, "APP_ERR_FAIL", "Generic failure"⟩,
   ⟨APP_ERR_UNKNOWN, "APP_ERR_UNKNOWN", "Unknown error"⟩,
   ⟨APP_ERR_COMM_NOT_INIT, "APP_ERR_COMM_NOT_INIT", "Communication not initialized"⟩,
   ⟨APP_ERR_COMM_TX_BUSY, "APP_ERR_COMM_TX_BUSY", "Communication transmit busy"⟩,
   ⟨APP_ERR_COMM_QUEUE_FULL, "APP_ERR_COMM_QUEUE_FULL", "Communication queue full"⟩,
   ⟨APP_ERR_COMM_PAYLOAD_TOO_LARGE, "APP_ERR_COMM_PAYLOAD_TOO_LARGE", "Payload too large"⟩,
   ⟨APP_ERR_COMM_INVALID_UART, "APP_ERR_COMM_INVALID_UART", "Invalid UART channel"⟩,
   ⟨APP_ERR_COMM_SEND_FAIL, "APP_ERR_COMM_SEND_FAIL", "Communication send failed"⟩,
   ⟨APP_ERR_PROTO_FRAME_TIMEOUT, "APP_ERR_PROTO_FRAME_TIMEOUT", "Protocol frame timeout"⟩,
   ⟨APP_ERR_PROTO_CRC_ERROR, "APP_ERR_PROTO_CRC_ERROR", "Protocol CRC error"⟩,
   ⟨APP_ERR_PROTO_INVALID_STATE, "APP_ERR_PROTO_INVALID_STATE", "Protocol invalid state"⟩,
   ⟨APP_ERR_PROTO_BUFFER_OVERFLOW, "APP_ERR_PROTO_BUFFER_OVERFLOW", "Protocol buffer overflow"⟩,
   ⟨APP_ERR_PROTO_INVALID_FRAME, "APP_ERR_PROTO_INVALID_FRAME", "Protocol invalid frame"⟩,
   ⟨APP_ERR_PROTO_INCOMPLETE_FRAME, "APP_ERR_PROTO_INCOMPLETE_FRAME",
     "Protocol incomplete frame"⟩,
   ⟨APP_ERR_PROTO_ESCAPE_ERROR, "APP_ERR_PROTO_ESCAPE_ERROR", "Protocol escape error"⟩,
   ⟨APP_ERR_UART_NOT_INIT, "APP_ERR_UART_NOT_INIT", "UART not initialized"⟩,
   ⟨APP_ERR_UART_TX_BUSY, "APP_ERR_UART_TX_BUSY", "UART transmit busy"⟩,
   ⟨APP_ERR_UART_TX_TIMEOUT, "APP_ERR_UART_TX_TIMEOUT", "UART transmit timeout"⟩,
   ⟨APP_ERR_UART_RX_ERROR, "APP_ERR_UART_RX_ERROR", "UART receive error"⟩,
   ⟨APP_ERR_UART_DMA_ERROR, "APP_ERR_UART_DMA_ERROR", "UART DMA error"⟩,
   ⟨APP_ERR_UART_INVALID_CH, "APP_ERR_UART_INVALID_CH", "UART invalid channel"⟩,
   ⟨APP_ERR_UART_BUFFER_FULL, "APP_ERR_UART_BUFFER_FULL", "UART buffer full"⟩,
   ⟨APP_ERR_SENSOR_NOT_RESPONDING, "APP_ERR_SENSOR_NOT_RESPONDING", "Sensor not responding"⟩,
   ⟨APP_ERR_SENSOR_INVALID_DATA, "APP_ERR_SENSOR_INVALID_DATA", "Sensor invalid data"⟩,
   ⟨APP_ERR_SENSOR_CHECKSUM, "APP_ERR_SENSOR_CHECKSUM", "Sensor checksum error"⟩,
   ⟨APP_ERR_SENSOR_NOT_FOUND, "APP_ERR_SENSOR_NOT_FOUND", "Sensor not found"⟩]

/-- The count `sizeof(s_errorTable) / sizeof(s_errorTable[0])`. -/
def s_errorTableSize : Nat := s_errorTable.length

/-! ## `snprintf(unknownStr, sizeof(unknownStr), "UNKNOWN_ERROR_0x%08lX", ...)` -/

/-- The digit characters of the conversion `%X`. -/
def upperHexChar (d : Nat) : Char := "0123456789ABCDEF".toList.getD d '0'

/-- The digits of `n` in base 16, most significant first, as the conversion
`%X` produces them before padding: no leading zero, and the single digit `0`
for the value zero. -/
def hexDigitsOf (n : Nat) : List Nat :=
  if n < 16 then [n] else hexDigitsOf (n / 16) ++ [n % 16]
termination_by n
decreasing_by omega

/-- The conversion `%0wX` with `w = width`: the digits of `n`, padded on the
left with `0` up to `width` characters (never cut when there are more). -/
def fmtZeroPadUpperHex (width n : Nat) : List Char :=
  let ds := (hexDigitsOf n).map upperHexChar
  List.replicate (width - ds.length) '0' ++ ds

/-- What `snprintf` leaves in a buffer of `size` bytes when the formatted text
is `text`: at most `size - 1` characters of it (the last byte is the
terminator). -/
def snprintf (size : Nat) (text : List Char) : String :=
  String.mk (text.take (size - 1))

/-- The size of the scratch buffer `static char unknownStr[32]`. -/
def unknownStrSize : Nat := 32

/-! ## `appErrorCode.c`: the five functions -/

/-- The `for` loop of `app_Err_ToString` over the entries still to visit:
the name of the first entry whose code is `errCode`, `none` when the loop
runs to its end. -/
def app_Err_ToString_loop (errCode : Nat) : List app_err_entry_t → Option String
  | [] => none
  | e :: rest => if e.code == errCode then some e.name else app_Err_ToString_loop errCode rest

/-- The text of one call of `app_Err_ToString`, read at the returned pointer
when the call returns (`app_Err_ToString_call` keeps the pointer and the
buffer apart).  The cast `(unsigned long)errCode` keeps the value:
`unsigned long` has at least 32 bits. -/
def app_Err_ToString (errCode : Nat) : String :=
  match app_Err_ToString_loop errCode s_errorTable with
  | some name => name
  | none =>
    snprintf unknownStrSize ("UNKNOWN_ERROR_0x".toList ++ fmtZeroPadUpperHex 8 errCode)

/-- What a `const char *` returned by `app_Err_ToString` points to: a string
literal of the table (`s_errorTable[i].name`), or the function's one buffer
`static char unknownStr[32]`. -/
inductive str_ptr where
  | literal (text : String)
  | unknownStr
  deriving DecidableEq, Repr

/-- The function `app_Err_ToString` with its static buffer made explicit:
from the contents of `unknownStr` before the call, the returned pointer and
the contents of `unknownStr` after the call.  A match in the table leaves the
buffer as it is; otherwise `snprintf` overwrites it and the buffer itself is
returned. -/
def app_Err_ToString_call (unknownStr : String) (errCode : Nat) : str_ptr × String :=
  match app_Err_ToString_loop errCode s_errorTable with
  | some name => (str_ptr.literal name, unknownStr)
  | none =>
    (str_ptr.unknownStr,
      snprintf unknownStrSize ("UNKNOWN_ERROR_0x".toList ++ fmtZeroPadUpperHex 8 errCode))

/-- The string read through a pointer returned by `app_Err_ToString`, when
the buffer `unknownStr` holds `unknownStr`. -/
def readStr (unknownStr : String) : str_ptr → String
  | str_ptr.literal text => text
  | str_ptr.unknownStr => unknownStr

/-- The `for` loop of `app_Err_GetDescription` over the entries still to
visit. -/
def app_Err_GetDescription_loop (errCode : Nat) : List app_err_entry_t → Option String
  | [] => none
  | e :: rest =>
    if e.code == errCode then some e.description else app_Err_GetDescription_loop errCode rest

/-- The function `app_Err_GetDescription`. -/
def app_Err_GetDescription (errCode : Nat) : String :=
  match app_Err_GetDescription_loop errCode s_errorTable with
  | some description => description
  | none => "Unknown error code"

/-- The function `app_Err_IsModule`. -/
def app_Err_IsModule (errCode module : Nat) : Bool :=
  (errCode &&& APP_ERR_MODULE_MASK) == module

/-- The function `app_Err_IsCategory`. -/
def app_Err_IsCategory (errCode category : Nat) : Bool :=
  (errCode &&& APP_ERR_CATEGORY_MASK) == category

/-- The `for` loop of `app_Err_IsRecoverable` over the codes still to visit. -/
def app_Err_IsRecoverable_loop (errCode : Nat) : List Nat → Bool
  | [] => false
  | r :: rest => if r == errCode then true else app_Err_IsRecoverable_loop errCode rest

/-- The function `app_Err_IsRecoverable`. -/
def app_Err_IsRecoverable (errCode : Nat) : Bool :=
  app_Err_IsRecoverable_loop errCode s_recoverableErrors

/-! ## Reading a fallback text back (the words of the specification) -/

/-- An uppercase hexadecimal digit: one of `0`-`9`, `A`-`F`. -/
def isUpperHexDigit (ch : Char) : Bool :=
  ('0' ≤ ch && ch ≤ '9') || ('A' ≤ ch && ch ≤ 'F')

/-- The value of an uppercase hexadecimal digit. -/
def upperHexDigitValue (ch : Char) : Nat :=
  if ch ≤ '9' then ch.toNat - '0'.toNat else ch.toNat - 'A'.toNat + 10

/-- The number a run of uppercase hexadecimal digits denotes, most
significant digit first. -/
def hexValueOf (ds : List Char) : Nat :=
  ds.foldl (fun acc ch => 16 * acc + upperHexDigitValue ch) 0

/-- The `k` low nibbles of `n`, most significant first: the fixed-width
hexadecimal expansion of `n`. -/
def nibblesOf : Nat → Nat → List Nat
  | 0, _ => []
  | k + 1, n => nibblesOf k (n / 16) ++ [n % 16]

/-! ## Lemmas on the scans -/

theorem toString_loop_none (c : Nat) (l : List app_err_entry_t)
    (h : ∀ e ∈ l, e.code ≠ c) : app_Err_ToString_loop c l = none := by
  induction l with
  | nil => rfl
  | cons e rest ih =>
    have he : e.code ≠ c := h e (List.mem_cons_self _ _)
    have hr : ∀ x ∈ rest, x.code ≠ c := fun x hx => h x (List.mem_cons_of_mem _ hx)
    simp [app_Err_ToString_loop, he, ih hr]

theorem getDescription_loop_none (c : Nat) (l : List app_err_entry_t)
    (h : ∀ e ∈ l, e.code ≠ c) : app_Err_GetDescription_loop c l = none := by
  induction l with
  | nil => rfl
  | cons e rest ih =>
    have he : e.code ≠ c := h e (List.mem_cons_self _ _)
    have hr : ∀ x ∈ rest, x.code ≠ c := fun x hx => h x (List.mem_cons_of_mem _ hx)
    simp [app_Err_GetDescription_loop, he, ih hr]

theorem isRecoverable_loop_iff (c : Nat) (l : List Nat) :
    app_Err_IsRecoverable_loop c l = true ↔ c ∈ l := by
  induction l with
  | nil => simp [app_Err_IsRecoverable_loop]
  | cons r rest ih =>
    by_cases hr : r = c
    · simp [app_Err_IsRecoverable_loop, hr]
    · have hc : ¬ c = r := fun h => hr h.symm
      simp [app_Err_IsRecoverable_loop, hr, hc, ih]

/-! ## Lemmas on the hexadecimal rendering -/

theorem upperHexChar_isUpperHexDigit (d : Nat) (h : d < 16) :
    isUpperHexDigit (upperHexChar d) = true := by
  interval_cases d <;> decide

theorem upperHexDigitValue_upperHexChar (d : Nat) (h : d < 16) :
    upperHexDigitValue (upperHexChar d) = d := by
  interval_cases d <;> decide

theorem nibblesOf_length (k n : Nat) : (nibblesOf k n).length = k := by
  induction k generalizing n with
  | zero => rfl
  | succ k ih => simp [nibblesOf, ih]

theorem nibblesOf_lt (k n : Nat) : ∀ d ∈ nibblesOf k n, d < 16 := by
  induction k generalizing n with
  | zero => intro d hd; simp [nibblesOf] at hd
  | succ k ih =>
    intro d hd
    simp only [nibblesOf, List.mem_append, List.mem_singleton] at hd
    rcases hd with hd | hd
    · exact ih _ d hd
    · omega

theorem nibblesOf_zero (k : Nat) : nibblesOf k 0 = List.replicate k 0 := by
  induction k with
  | zero => rfl
  | succ k ih => simp [nibblesOf, ih, List.replicate_succ']

theorem hexValueOf_append_digit (ds : List Char) (ch : Char) :
    hexValueOf (ds ++ [ch]) = 16 * hexValueOf ds + upperHexDigitValue ch := by
  simp [hexValueOf, List.foldl_append]

theorem hexValueOf_nibblesOf (k n : Nat) :
    hexValueOf ((nibblesOf k n).map upperHexChar) = n % 16 ^ k := by
  induction k generalizing n with
  | zero => simp [nibblesOf, hexValueOf, Nat.mod_one]
  | succ k ih =>
    simp only [nibblesOf, List.map_append, List.map_cons, List.map_nil]
    rw [hexValueOf_append_digit, ih,
      upperHexDigitValue_upperHexChar _ (Nat.mod_lt _ (by decide))]
    have h : n % (16 * 16 ^ k) = n % 16 + 16 * (n / 16 % 16 ^ k) := Nat.mod_mul
    rw [pow_succ, Nat.mul_comm (16 ^ k) 16, h]
    omega

/-- Padding the digits of `n` with zeros up to `k + 1` places gives the
fixed-width expansion, as soon as `n` fits `k + 1` places. -/
theorem pad_hexDigitsOf (k n : Nat) (h : n < 16 ^ (k + 1)) :
    List.replicate (k + 1 - (hexDigitsOf n).length) 0 ++ hexDigitsOf n = nibblesOf (k + 1) n := by
  induction k generalizing n with
  | zero =>
    have hn : n < 16 := by simpa using h
    rw [hexDigitsOf]
    simp [hn, nibblesOf, Nat.mod_eq_of_lt hn]
  | succ k ih =>
    by_cases hn : n < 16
    · rw [hexDigitsOf]
      have hz : n / 16 = 0 := Nat.div_eq_of_lt hn
      simp [hn, nibblesOf, hz, nibblesOf_zero, Nat.mod_eq_of_lt hn, List.replicate_succ']
    · have hd : n / 16 < 16 ^ (k + 1) := by
        rw [Nat.div_lt_iff_lt_mul (by decide)]
        calc n < 16 ^ (k + 1 + 1) := h
          _ = 16 ^ (k + 1) * 16 := pow_succ _ _
      have e : hexDigitsOf n = hexDigitsOf (n / 16) ++ [n % 16] := by
        rw [hexDigitsOf]; simp [hn]
      rw [e, nibblesOf, ← ih (n / 16) hd]
      simp [List.length_append]

theorem fmtZeroPadUpperHex_eq (k n : Nat) (h : n < 16 ^ (k + 1)) :
    fmtZeroPadUpperHex (k + 1) n = (nibblesOf (k + 1) n).map upperHexChar := by
  have h0 : upperHexChar 0 = '0' := by decide
  rw [← pad_hexDigitsOf k n h]
  simp [fmtZeroPadUpperHex, h0]

/-! ## Lemmas on masks -/

theorem and_eq_zero_of_lt (d m k : Nat) (hd : d < 2 ^ k) (hm : m % 2 ^ k = 0) :
    d &&& m = 0 := by
  apply Nat.eq_of_testBit_eq
  intro i
  rw [Nat.testBit_and, Nat.zero_testBit]
  by_cases hi : i < k
  · have h := Nat.testBit_mod_two_pow m k i
    rw [hm, Nat.zero_testBit] at h
    have hmi : m.testBit i = false := by simpa [hi] using h.symm
    simp [hmi]
  · have hle : 2 ^ k ≤ 2 ^ i := Nat.pow_le_pow_right (by decide) (by omega)
    have hdi : d.testBit i = false := Nat.testBit_lt_two_pow (lt_of_lt_of_le hd hle)
    simp [hdi]

theorem or_and_of_and_eq_zero (a d m : Nat) (h : d &&& m = 0) :
    (a ||| d) &&& m = a &&& m := by
  rw [Nat.and_comm, Nat.and_or_distrib_left, Nat.and_comm m d, h, Nat.or_zero, Nat.and_comm]

/-- The module field of `M | G | d` is the module field of `M`, for a category
constant `G` and a discriminator of at most 12 bits. -/
theorem construct_and_module_mask (M G d : Nat) (hG : G ∈ categoryConstants)
    (hd : d ≤ 0xFFF) :
    (M ||| G ||| d) &&& APP_ERR_MODULE_MASK = M &&& APP_ERR_MODULE_MASK := by
  have h1 : d &&& APP_ERR_MODULE_MASK = 0 :=
    and_eq_zero_of_lt d APP_ERR_MODULE_MASK 24 (by omega) (by decide)
  have h2 : G &&& APP_ERR_MODULE_MASK = 0 := by
    revert G; decide
  rw [or_and_of_and_eq_zero _ _ _ h1, or_and_of_and_eq_zero _ _ _ h2]

/-- The category field of `M | G | d` is `G`, for a module constant `M`, a
category constant `G` and a discriminator of at most 12 bits. -/
theorem construct_and_category_mask (M G d : Nat) (hM : M ∈ moduleConstants)
    (hG : G ∈ categoryConstants) (hd : d ≤ 0xFFF) :
    (M ||| G ||| d) &&& APP_ERR_CATEGORY_MASK = G := by
  have h1 : d &&& APP_ERR_CATEGORY_MASK = 0 :=
    and_eq_zero_of_lt d APP_ERR_CATEGORY_MASK 20 (by omega) (by decide)
  have h2 : ∀ M ∈ moduleConstants, ∀ G ∈ categoryConstants,
      (M ||| G) &&& APP_ERR_CATEGORY_MASK = G := by decide
  rw [or_and_of_and_eq_zero _ _ _ h1, h2 M hM G hG]

/-- For the nine modules other than `APP_ERR_MODULE_USER`, a code built as
`M | G | d` belongs to the module `m` exactly when `m` is `M`. -/
theorem construct_isModule_iff (M G d m : Nat) (hM : M ∈ moduleConstants)
    (hU : M ≠ APP_ERR_MODULE_USER) (hG : G ∈ categoryConstants) (hd : d ≤ 0xFFF) :
    app_Err_IsModule (M ||| G ||| d) m = true ↔ m = M := by
  have hMM : ∀ M ∈ moduleConstants, M ≠ APP_ERR_MODULE_USER → M &&& APP_ERR_MODULE_MASK = M := by
    decide
  unfold app_Err_IsModule
  rw [construct_and_module_mask M G d hG hd, hMM M hM hU]
  rw [beq_iff_eq]
  exact eq_comm

/-- A code built as `M | G | d`, for any of the ten modules, belongs to the
category `g` exactly when `g` is `G`. -/
theorem construct_isCategory_iff (M G d g : Nat) (hM : M ∈ moduleConstants)
    (hG : G ∈ categoryConstants) (hd : d ≤ 0xFFF) :
    app_Err_IsCategory (M ||| G ||| d) g = true ↔ g = G := by
  unfold app_Err_IsCategory
  rw [construct_and_category_mask M G d hM hG hd]
  rw [beq_iff_eq]
  exact eq_comm

/-! ## Lemmas on the tables -/

theorem isRecoverable_iff_mem (c : Nat) :
    app_Err_IsRecoverable c = true ↔
      c ∈ [0x00300001, 0x00400001, 0x01400001, 0x01500001, 0x03400001, 0x03300001,
        0x02300001] := by
  have hl : s_recoverableErrors
      = [0x00300001, 0x00400001, 0x01400001, 0x01500001, 0x03400001, 0x03300001, 0x02300001] := by
    decide
  unfold app_Err_IsRecoverable
  rw [isRecoverable_loop_iff, hl]

theorem filter_code_length_le_one (c : Nat) (l : List app_err_entry_t)
    (h : (l.map (fun e => e.code)).Nodup) :
    (l.filter (fun e => e.code == c)).length ≤ 1 := by
  induction l with
  | nil => simp
  | cons e rest ih =>
    rw [List.map_cons, List.nodup_cons] at h
    by_cases hec : e.code = c
    · have hnil : rest.filter (fun x => x.code == c) = [] := by
        rw [List.filter_eq_nil_iff]
        intro x hx hxc
        apply h.1
        have hxe : x.code = e.code := by rw [hec]; simpa using hxc
        rw [← hxe]
        exact List.mem_map_of_mem _ hx
      simp [List.filter_cons, hec, hnil]
    · have := ih h.2
      simpa [List.filter_cons, hec] using this

/-! ## Lemmas on the bit-fields -/

theorem testBit_shifted_ones (w k i : Nat) :
    ((2 ^ w - 1) <<< k).testBit i = (decide (k ≤ i) && decide (i < k + w)) := by
  rw [Nat.testBit_shiftLeft, Nat.testBit_two_pow_sub_one]
  by_cases h : k ≤ i
  · have hiff : (i - k < w) ↔ (i < k + w) := by omega
    simp [h, hiff]
  · simp [h]

theorem testBit_module_mask (i : Nat) :
    (0xFF000000 : Nat).testBit i = (decide (24 ≤ i) && decide (i < 32)) := by
  have h : (0xFF000000 : Nat) = (2 ^ 8 - 1) <<< 24 := by decide
  rw [h, testBit_shifted_ones]

theorem testBit_category_mask (i : Nat) :
    (0x00F00000 : Nat).testBit i = (decide (20 ≤ i) && decide (i < 24)) := by
  have h : (0x00F00000 : Nat) = (2 ^ 4 - 1) <<< 20 := by decide
  rw [h, testBit_shifted_ones]

theorem testBit_low20_mask (i : Nat) :
    (0x000FFFFF : Nat).testBit i = decide (i < 20) := by
  have h : (0x000FFFFF : Nat) = 2 ^ 20 - 1 := by decide
  rw [h, Nat.testBit_two_pow_sub_one]

theorem testBit_of_ge_32 (c i : Nat) (hc : c < 2 ^ 32) (hi : 32 ≤ i) : c.testBit i = false :=
  Nat.testBit_lt_two_pow (lt_of_lt_of_le hc (Nat.pow_le_pow_right (by decide) hi))

/-- A 32-bit value is the union of its three fields, each put back in place. -/
theorem fields_decompose (c : Nat) (hc : c < 2 ^ 32) :
    c = (((c &&& 0xFF000000) >>> 24) <<< 24) ||| (((c &&& 0x00F00000) >>> 20) <<< 20)
          ||| (c &&& 0x000FFFFF) := by
  apply Nat.eq_of_testBit_eq
  intro i
  simp only [Nat.testBit_or, Nat.testBit_and, Nat.testBit_shiftLeft, Nat.testBit_shiftRight,
    testBit_module_mask, testBit_category_mask, testBit_low20_mask]
  by_cases h32 : i < 32
  · by_cases h24 : 24 ≤ i
    · have e : 24 + (i - 24) = i := by omega
      have h20 : 20 ≤ i := by omega
      have e2 : 20 + (i - 20) = i := by omega
      have n24 : ¬ i < 24 := by omega
      have n20 : ¬ i < 20 := by omega
      simp [h24, e, h32, h20, e2, n24, n20]
    · by_cases h20 : 20 ≤ i
      · have e : 20 + (i - 20) = i := by omega
        have l24 : i < 24 := by omega
        have n20 : ¬ i < 20 := by omega
        simp [h24, h20, e, l24, n20]
      · have l20 : i < 20 := by omega
        simp [h24, h20, l20]
  · have hci : c.testBit i = false := testBit_of_ge_32 c i hc (by omega)
    have e : 24 + (i - 24) = i := by omega
    have e2 : 20 + (i - 20) = i := by omega
    simp [hci, e, e2]

theorem and_module_mask_shiftRight (c : Nat) (hc : c < 2 ^ 32) :
    (c &&& 0xFF000000) >>> 24 = c >>> 24 := by
  apply Nat.eq_of_testBit_eq
  intro i
  simp only [Nat.testBit_and, Nat.testBit_shiftRight, testBit_module_mask]
  by_cases h : 24 + i < 32
  · simp [h]
  · have hci : c.testBit (24 + i) = false := testBit_of_ge_32 c _ hc (by omega)
    simp [hci]

theorem and_category_mask_shiftRight (c : Nat) :
    (c &&& 0x00F00000) >>> 20 = (c >>> 20) &&& 0xF := by
  have hF : (0xF : Nat) = 2 ^ 4 - 1 := by decide
  apply Nat.eq_of_testBit_eq
  intro i
  rw [hF]
  simp only [Nat.testBit_and, Nat.testBit_shiftRight, testBit_category_mask,
    Nat.testBit_two_pow_sub_one]
  by_cases h : i < 4
  · have h24 : 20 + i < 24 := by omega
    simp [h, h24]
  · have h24 : ¬ (20 + i < 24) := by omega
    simp [h, h24]

/-! ## Lemmas on the two lookups -/

theorem registered_or_not (c : Nat) :
    (∃ e ∈ s_errorTable, e.code = c) ∨ (∀ e ∈ s_errorTable, e.code ≠ c) := by
  by_cases h : ∃ e ∈ s_errorTable, e.code = c
  · exact Or.inl h
  · right
    intro e he hec
    exact h ⟨e, he, hec⟩

theorem toString_of_mem : ∀ e ∈ s_errorTable, app_Err_ToString e.code = e.name := by
  decide

theorem getDescription_of_mem :
    ∀ e ∈ s_errorTable, app_Err_GetDescription e.code = e.description := by
  decide

/-- The formatted text of the fallback, for a 32-bit code: the fixed text
and the eight nibbles of the code. -/
theorem fallback_text_eq (c : Nat) (hc : c < 2 ^ 32) :
    "UNKNOWN_ERROR_0x".toList ++ fmtZeroPadUpperHex 8 c
      = "UNKNOWN_ERROR_0x".toList ++ (nibblesOf 8 c).map upperHexChar := by
  have h16 : c < 16 ^ (7 + 1) := by
    have hpow : (16 : Nat) ^ (7 + 1) = 2 ^ 32 := by norm_num
    omega
  rw [show (8 : Nat) = 7 + 1 from rfl, fmtZeroPadUpperHex_eq 7 c h16]

theorem fallback_text_length (c : Nat) (hc : c < 2 ^ 32) :
    ("UNKNOWN_ERROR_0x".toList ++ fmtZeroPadUpperHex 8 c).length = 24 := by
  rw [fallback_text_eq c hc, List.length_append, List.length_map, nibblesOf_length]
  decide

theorem toString_of_not_mem (c : Nat) (hc : c < 2 ^ 32)
    (hnot : ∀ e ∈ s_errorTable, e.code ≠ c) :
    app_Err_ToString c
      = String.mk ("UNKNOWN_ERROR_0x".toList ++ (nibblesOf 8 c).map upperHexChar) := by
  have hlen : ("UNKNOWN_ERROR_0x".toList ++ fmtZeroPadUpperHex 8 c).length
      ≤ unknownStrSize - 1 := by
    rw [fallback_text_length c hc]
    decide
  unfold app_Err_ToString
  rw [toString_loop_none c s_errorTable hnot]
  show snprintf unknownStrSize ("UNKNOWN_ERROR_0x".toList ++ fmtZeroPadUpperHex 8 c) = _
  rw [snprintf, List.take_of_length_le hlen, fallback_text_eq c hc]

theorem getDescription_of_not_mem (c : Nat) (hnot : ∀ e ∈ s_errorTable, e.code ≠ c) :
    app_Err_GetDescription c = "Unknown error code" := by
  unfold app_Err_GetDescription
  rw [getDescription_loop_none c s_errorTable hnot]

/-- Every registered name starts with the letter `A`, and its first
character is therefore not the `U` of the fallback text. -/
theorem registered_name_head : ∀ e ∈ s_errorTable, e.name.data.head? = some 'A' := by
  decide

theorem registered_names_injective :
    ∀ e ∈ s_errorTable, ∀ f ∈ s_errorTable, e.name = f.name → e.code = f.code := by
  decide

theorem nibbles_injective (a b : Nat) (ha : a < 2 ^ 32) (hb : b < 2 ^ 32)
    (h : (nibblesOf 8 a).map upperHexChar = (nibblesOf 8 b).map upperHexChar) : a = b := by
  have hv := congrArg hexValueOf h
  rw [hexValueOf_nibblesOf, hexValueOf_nibblesOf] at hv
  have hpow : (16 : Nat) ^ 8 = 2 ^ 32 := by norm_num
  rw [hpow, Nat.mod_eq_of_lt ha, Nat.mod_eq_of_lt hb] at hv
  exact hv

theorem registered_description_ne :
    ∀ e ∈ s_errorTable, e.description ≠ "Unknown error code" := by
  decide

theorem head_of_fallback_start (l : List Char) (h : "UNKNOWN_ERROR_0x".toList <+: l) :
    l.head? = some 'U' := by
  obtain ⟨t, rfl⟩ := h
  rfl

theorem registered_name_not_fallback (e : app_err_entry_t) (he : e ∈ s_errorTable) :
    ¬ ("UNKNOWN_ERROR_0x".toList <+: e.name.toList) := by
  intro h
  have h1 := head_of_fallback_start _ h
  have h2 : e.name.toList.head? = some 'A' := registered_name_head e he
  rw [h2] at h1
  exact absurd h1 (by decide)

theorem fallback_head (l : List Char) :
    (String.mk ("UNKNOWN_ERROR_0x".toList ++ l)).data.head? = some 'U' :=
  rfl

theorem registered_name_ne_empty : ∀ e ∈ s_errorTable, e.name ≠ "" := by
  decide

/-! ## The name and the description of a code -/

/-- C1: the registry table has 35 entries, the first with code `0x00000000`
(`APP_ERR_OK`) and the last with code `0x08200001`
(`APP_ERR_SENSOR_NOT_FOUND`); for every entry of the table,
`app_Err_ToString` of the entry's code returns exactly the entry's name; in
particular `app_Err_ToString(0x00300001)` is `"APP_ERR_TIMEOUT"` and
`app_Err_ToString(0)` is `"APP_ERR_OK"`. -/
theorem C1_toString_registered :
    s_errorTableSize = 35 ∧
    s_errorTable.head? = some ⟨0x00000000, "APP_ERR_OK", "Success"⟩ ∧
    s_errorTable.getLast? = some ⟨0x08200001, "APP_ERR_SENSOR_NOT_FOUND", "Sensor not found"⟩ ∧
    (∀ e ∈ s_errorTable, app_Err_ToString e.code = e.name) ∧
    app_Err_ToString 0x00300001 = "APP_ERR_TIMEOUT" ∧
    app_Err_ToString 0 = "APP_ERR_OK" := by
  refine ⟨by decide, by decide, by decide, by decide, by decide, by decide⟩

/-- C1 at the entry of `APP_ERR_PROTO_CRC_ERROR`. -/
theorem C1_toString_registered_witness :
    (⟨0x02700001, "APP_ERR_PROTO_CRC_ERROR", "Protocol CRC error"⟩ : app_err_entry_t)
        ∈ s_errorTable ∧
      app_Err_ToString 0x02700001 = "APP_ERR_PROTO_CRC_ERROR" :=
  ⟨by decide,
   C1_toString_registered.2.2.2.1
     ⟨0x02700001, "APP_ERR_PROTO_CRC_ERROR", "Protocol CRC error"⟩ (by decide)⟩

/-- C2: for every 32-bit code that is the code of no entry of the registry
table, `app_Err_ToString` returns `"UNKNOWN_ERROR_0x"` followed by a run `ds`
of exactly 8 characters, each an uppercase hexadecimal digit, whose value
read as a hexadecimal number is the code; the run is the fixed-width
expansion of the code, so it is padded with zeros on the left. -/
theorem C2_toString_unknown (c : Nat) (hc : c < 2 ^ 32)
    (hnot : ∀ e ∈ s_errorTable, e.code ≠ c) :
    ∃ ds : List Char,
      app_Err_ToString c = "UNKNOWN_ERROR_0x" ++ String.mk ds ∧
      ds.length = 8 ∧
      (∀ ch ∈ ds, isUpperHexDigit ch = true) ∧
      hexValueOf ds = c ∧
      ds = (nibblesOf 8 c).map upperHexChar := by
  have h16 : c < 16 ^ (7 + 1) := by
    have : (16 : Nat) ^ (7 + 1) = 2 ^ 32 := by norm_num
    omega
  refine ⟨(nibblesOf 8 c).map upperHexChar, ?_, ?_, ?_, ?_, rfl⟩
  · have hlen : ("UNKNOWN_ERROR_0x".toList ++ (nibblesOf 8 c).map upperHexChar).length
        ≤ unknownStrSize - 1 := by
      rw [List.length_append, List.length_map, nibblesOf_length]
      decide
    unfold app_Err_ToString
    rw [toString_loop_none c s_errorTable hnot]
    show snprintf unknownStrSize ("UNKNOWN_ERROR_0x".toList ++ fmtZeroPadUpperHex (7 + 1) c) = _
    rw [fmtZeroPadUpperHex_eq 7 c h16, snprintf, List.take_of_length_le hlen]
    rfl
  · rw [List.length_map, nibblesOf_length]
  · intro ch hch
    obtain ⟨d, hd, rfl⟩ := List.mem_map.mp hch
    exact upperHexChar_isUpperHexDigit d (nibblesOf_lt 8 c d hd)
  · rw [hexValueOf_nibblesOf]
    exact Nat.mod_eq_of_lt h16

/-- C2 at `0xDEADBEEF` and at `0x00000001`: the texts are
`"UNKNOWN_ERROR_0xDEADBEEF"` and `"UNKNOWN_ERROR_0x00000001"`. -/
theorem C2_toString_unknown_witness :
    (0xDEADBEEF < 2 ^ 32 ∧ (∀ e ∈ s_errorTable, e.code ≠ 0xDEADBEEF) ∧
      app_Err_ToString 0xDEADBEEF = "UNKNOWN_ERROR_0xDEADBEEF") ∧
    (0x00000001 < 2 ^ 32 ∧ (∀ e ∈ s_errorTable, e.code ≠ 0x00000001) ∧
      app_Err_ToString 0x00000001 = "UNKNOWN_ERROR_0x00000001") := by
  refine ⟨⟨by decide, by decide, ?_⟩, ⟨by decide, by decide, ?_⟩⟩
  · obtain ⟨ds, h, -, -, -, rfl⟩ := C2_toString_unknown 0xDEADBEEF (by decide) (by decide)
    rw [h]; decide
  · obtain ⟨ds, h, -, -, -, rfl⟩ := C2_toString_unknown 0x00000001 (by decide) (by decide)
    rw [h]; decide

/-- C3: for every code `c`, `app_Err_GetDescription c` is the description of
the entry of the registry table whose code is `c` when there is one, and
`"Unknown error code"` when no entry has the code `c`. -/
theorem C3_getDescription (c : Nat) :
    (∀ e ∈ s_errorTable, e.code = c → app_Err_GetDescription c = e.description) ∧
    ((∀ e ∈ s_errorTable, e.code ≠ c) → app_Err_GetDescription c = "Unknown error code") := by
  constructor
  · intro e he hec
    subst hec
    revert e
    decide
  · intro hnot
    unfold app_Err_GetDescription
    rw [getDescription_loop_none c s_errorTable hnot]

/-- C3 at `0x00300001` (registered, `"Timeout"`) and at `0xDEADBEEF` (not
registered). -/
theorem C3_getDescription_witness :
    ((⟨0x00300001, "APP_ERR_TIMEOUT", "Timeout"⟩ : app_err_entry_t) ∈ s_errorTable ∧
      app_Err_GetDescription 0x00300001 = "Timeout") ∧
    ((∀ e ∈ s_errorTable, e.code ≠ 0xDEADBEEF) ∧
      app_Err_GetDescription 0xDEADBEEF = "Unknown error code") :=
  ⟨⟨by decide,
    (C3_getDescription 0x00300001).1 ⟨0x00300001, "APP_ERR_TIMEOUT", "Timeout"⟩
      (by decide) rfl⟩,
   ⟨by decide, (C3_getDescription 0xDEADBEEF).2 (by decide)⟩⟩

/-! ## Recoverable codes -/

/-- C4: for every code `c`, `app_Err_IsRecoverable c` is true if and only if
`c` is one of the seven values `0x00300001`, `0x00400001`, `0x01400001`,
`0x01500001`, `0x03400001`, `0x03300001`, `0x02300001`, which are the values
of `APP_ERR_TIMEOUT`, `APP_ERR_BUSY`, `APP_ERR_COMM_TX_BUSY`,
`APP_ERR_COMM_QUEUE_FULL`, `APP_ERR_UART_TX_BUSY`, `APP_ERR_UART_TX_TIMEOUT`
and `APP_ERR_PROTO_FRAME_TIMEOUT` and are pairwise distinct; it is false for
`APP_ERR_PROTO_CRC_ERROR`, which is `0x02700001`. -/
theorem C4_isRecoverable_iff :
    (∀ c : Nat, app_Err_IsRecoverable c = true ↔
      (c = 0x00300001 ∨ c = 0x00400001 ∨ c = 0x01400001 ∨ c = 0x01500001 ∨
        c = 0x03400001 ∨ c = 0x03300001 ∨ c = 0x02300001)) ∧
    [APP_ERR_TIMEOUT, APP_ERR_BUSY, APP_ERR_COMM_TX_BUSY, APP_ERR_COMM_QUEUE_FULL,
      APP_ERR_UART_TX_BUSY, APP_ERR_UART_TX_TIMEOUT, APP_ERR_PROTO_FRAME_TIMEOUT]
      = [0x00300001, 0x00400001, 0x01400001, 0x01500001, 0x03400001, 0x03300001, 0x02300001] ∧
    s_recoverableErrors.Nodup ∧ s_recoverableErrorCount = 7 ∧
    APP_ERR_PROTO_CRC_ERROR = 0x02700001 ∧
    app_Err_IsRecoverable 0x02700001 = false := by
  refine ⟨?_, by decide, by decide, by decide, by decide, by decide⟩
  intro c
  rw [isRecoverable_iff_mem]
  simp

/-! ## Modules and categories -/

/-- C5 (where the code departs from it): `APP_ERR_MODULE_USER` is one of the
ten module constants, yet a code built as `APP_ERR_MODULE_USER | G | d`, for
any category constant `G` and any discriminator `d` of at most `0xFFF`,
belongs to none of the ten modules according to `app_Err_IsModule`, not even
to `APP_ERR_MODULE_USER` itself; for instance
`APP_ERR_MODULE_USER | APP_ERR_CATEGORY_PARAM | 0x001` is `0xFF1000FF` and
`app_Err_IsModule(0xFF1000FF, APP_ERR_MODULE_USER)` is false. -/
theorem C5_user_module_never_matches :
    APP_ERR_MODULE_USER ∈ moduleConstants ∧
    (∀ G ∈ categoryConstants, ∀ d : Nat, d ≤ 0xFFF → ∀ m ∈ moduleConstants,
      app_Err_IsModule (APP_ERR_MODULE_USER ||| G ||| d) m = false) ∧
    (APP_ERR_MODULE_USER ||| APP_ERR_CATEGORY_PARAM ||| 0x001) = 0xFF1000FF ∧
    app_Err_IsModule 0xFF1000FF APP_ERR_MODULE_USER = false := by
  refine ⟨by decide, ?_, by decide, by decide⟩
  intro G hG d hd m hm
  have hall : ∀ m ∈ moduleConstants,
      ((APP_ERR_MODULE_USER &&& APP_ERR_MODULE_MASK) == m) = false := by decide
  unfold app_Err_IsModule
  rw [construct_and_module_mask APP_ERR_MODULE_USER G d hG hd]
  exact hall m hm

/-- C5 at the category `APP_ERR_CATEGORY_BUSY`, the discriminator `0xFFF`
and the module `APP_ERR_MODULE_USER`. -/
theorem C5_user_module_never_matches_witness :
    APP_ERR_CATEGORY_BUSY ∈ categoryConstants ∧ 0xFFF ≤ 0xFFF ∧
    APP_ERR_MODULE_USER ∈ moduleConstants ∧
    app_Err_IsModule (APP_ERR_MODULE_USER ||| APP_ERR_CATEGORY_BUSY ||| 0xFFF)
      APP_ERR_MODULE_USER = false :=
  ⟨by decide, by decide, by decide,
   C5_user_module_never_matches.2.1 APP_ERR_CATEGORY_BUSY (by decide) 0xFFF (by decide)
     APP_ERR_MODULE_USER (by decide)⟩

/-- C6: the header defines 34 error constants as `M | G | d`, with `M` a
module constant and `G` a category constant, and they are the codes of the
registry table after `APP_ERR_OK`; for each of them `APP_ERR_GET_MODULE` of
the code is `M >> 24` and `app_Err_IsModule(code, M)` is true, and
`APP_ERR_GET_CATEGORY` of the code is `G >> 20` and
`app_Err_IsCategory(code, G)` is true. -/
theorem C6_decode_roundtrip :
    declaredConstants.length = 34 ∧
    declaredConstants.map (fun k => k.code) = (s_errorTable.map (fun e => e.code)).tail ∧
    (∀ k ∈ declaredConstants,
      k.code = k.module ||| k.category ||| k.disc ∧
      k.module ∈ moduleConstants ∧ k.category ∈ categoryConstants) ∧
    (∀ k ∈ declaredConstants,
      APP_ERR_GET_MODULE k.code = k.module >>> 24 ∧
      app_Err_IsModule k.code k.module = true ∧
      APP_ERR_GET_CATEGORY k.code = k.category >>> 20 ∧
      app_Err_IsCategory k.code k.category = true) := by
  refine ⟨by decide, by decide, by decide, by decide⟩

/-- C6 at `APP_ERR_UART_DMA_ERROR`: module number 3, category number 9. -/
theorem C6_decode_roundtrip_witness :
    (⟨APP_ERR_MODULE_UART, APP_ERR_CATEGORY_HARDWARE, 0x001, APP_ERR_UART_DMA_ERROR⟩ :
        declared_const) ∈ declaredConstants ∧
    APP_ERR_GET_MODULE APP_ERR_UART_DMA_ERROR = 3 ∧
    app_Err_IsModule APP_ERR_UART_DMA_ERROR APP_ERR_MODULE_UART = true ∧
    APP_ERR_GET_CATEGORY APP_ERR_UART_DMA_ERROR = 9 ∧
    app_Err_IsCategory APP_ERR_UART_DMA_ERROR APP_ERR_CATEGORY_HARDWARE = true :=
  ⟨by decide,
   C6_decode_roundtrip.2.2.2
     ⟨APP_ERR_MODULE_UART, APP_ERR_CATEGORY_HARDWARE, 0x001, APP_ERR_UART_DMA_ERROR⟩
     (by decide)⟩

/-- C7: for all values `c`, `m` and `g`, `app_Err_IsModule c m` is the truth
value of `(c & 0xFF000000) = m` and `app_Err_IsCategory c g` is the truth
value of `(c & 0x00F00000) = g`, whatever the shape of `m` and `g`; in
particular `app_Err_IsModule(0x00300001, 0x00000000)` and
`app_Err_IsCategory(0x00300001, 0x00300000)` are true. -/
theorem C7_isModule_isCategory (c m g : Nat) :
    app_Err_IsModule c m = decide ((c &&& 0xFF000000) = m) ∧
    app_Err_IsCategory c g = decide ((c &&& 0x00F00000) = g) ∧
    app_Err_IsModule 0x00300001 0x00000000 = true ∧
    app_Err_IsCategory 0x00300001 0x00300000 = true := by
  refine ⟨?_, ?_, by decide, by decide⟩
  · rw [Bool.eq_iff_iff]
    simp [app_Err_IsModule, APP_ERR_MODULE_MASK]
  · rw [Bool.eq_iff_iff]
    simp [app_Err_IsCategory, APP_ERR_CATEGORY_MASK]

/-- C8: the codes of the registry table are pairwise distinct, so for every
code at most one entry of the table matches it; and two distinct constants
among the 34 the header defines as `M | G | d` that have the same module and
the same category have different discriminators. -/
theorem C8_codes_pairwise_distinct :
    (s_errorTable.map (fun e => e.code)).Nodup ∧
    (∀ c : Nat, (s_errorTable.filter (fun e => e.code == c)).length ≤ 1) ∧
    (∀ k ∈ declaredConstants, ∀ j ∈ declaredConstants,
      k ≠ j → k.module = j.module → k.category = j.category → k.disc ≠ j.disc) := by
  have hnd : (s_errorTable.map (fun e => e.code)).Nodup := by decide
  refine ⟨hnd, fun c => filter_code_length_le_one c s_errorTable hnd, by decide⟩

/-- C8 at `APP_ERR_NULL_PTR` and `APP_ERR_INVALID_PARAM`, both of the System
module and the Param category: discriminators 1 and 2. -/
theorem C8_codes_pairwise_distinct_witness :
    (⟨APP_ERR_MODULE_SYSTEM, APP_ERR_CATEGORY_PARAM, 0x001, APP_ERR_NULL_PTR⟩ : declared_const)
      ∈ declaredConstants ∧
    (⟨APP_ERR_MODULE_SYSTEM, APP_ERR_CATEGORY_PARAM, 0x002, APP_ERR_INVALID_PARAM⟩ :
      declared_const) ∈ declaredConstants ∧
    (0x001 : Nat) ≠ 0x002 :=
  ⟨by decide, by decide,
   C8_codes_pairwise_distinct.2.2
     ⟨APP_ERR_MODULE_SYSTEM, APP_ERR_CATEGORY_PARAM, 0x001, APP_ERR_NULL_PTR⟩ (by decide)
     ⟨APP_ERR_MODULE_SYSTEM, APP_ERR_CATEGORY_PARAM, 0x002, APP_ERR_INVALID_PARAM⟩ (by decide)
     (by decide) rfl rfl⟩

/-! ## Recoverable codes and categories -/

/-- C9: a code of the Checksum category, that is a code `c` with
`app_Err_IsCategory(c, APP_ERR_CATEGORY_CHECKSUM)` true, is not recoverable,
whatever its module and discriminator. -/
theorem C9_checksum_not_recoverable (c : Nat)
    (h : app_Err_IsCategory c APP_ERR_CATEGORY_CHECKSUM = true) :
    app_Err_IsRecoverable c = false := by
  cases hr : app_Err_IsRecoverable c with
  | false => rfl
  | true =>
    exfalso
    have hm := (isRecoverable_iff_mem c).mp hr
    simp only [List.mem_cons, List.mem_singleton, List.not_mem_nil, or_false] at hm
    rcases hm with rfl | rfl | rfl | rfl | rfl | rfl | rfl <;> revert h <;> decide

/-- C9 at `APP_ERR_PROTO_CRC_ERROR` (`0x02700001`) and at
`APP_ERR_SENSOR_CHECKSUM` (`0x08700001`). -/
theorem C9_checksum_not_recoverable_witness :
    (app_Err_IsCategory 0x02700001 APP_ERR_CATEGORY_CHECKSUM = true ∧
      app_Err_IsRecoverable 0x02700001 = false) ∧
    (app_Err_IsCategory 0x08700001 APP_ERR_CATEGORY_CHECKSUM = true ∧
      app_Err_IsRecoverable 0x08700001 = false) :=
  ⟨⟨by decide, C9_checksum_not_recoverable 0x02700001 (by decide)⟩,
   ⟨by decide, C9_checksum_not_recoverable 0x08700001 (by decide)⟩⟩

/-- C10 as stated fails: `APP_ERR_COMM_QUEUE_FULL` (`0x01500001`) is a 32-bit
code that `app_Err_IsRecoverable` accepts, and it is neither of the Timeout
category nor of the Busy category (its category is NoMem). -/
theorem C10_counterexample :
    APP_ERR_COMM_QUEUE_FULL = 0x01500001 ∧
    app_Err_IsRecoverable 0x01500001 = true ∧
    app_Err_IsCategory 0x01500001 APP_ERR_CATEGORY_TIMEOUT = false ∧
    app_Err_IsCategory 0x01500001 APP_ERR_CATEGORY_BUSY = false ∧
    ¬ (∀ c : Nat, c < 2 ^ 32 → app_Err_IsRecoverable c = true →
        (app_Err_IsCategory c APP_ERR_CATEGORY_TIMEOUT = true ∨
          app_Err_IsCategory c APP_ERR_CATEGORY_BUSY = true)) := by
  refine ⟨by decide, by decide, by decide, by decide, ?_⟩
  intro hall
  exact absurd (hall 0x01500001 (by decide) (by decide)) (by decide)

/-- C10, amended: every recoverable code is of the Timeout category, of the
Busy category, or is `APP_ERR_COMM_QUEUE_FULL`, which is of the NoMem
category. -/
theorem C10_recoverable_categories (c : Nat) (h : app_Err_IsRecoverable c = true) :
    app_Err_IsCategory c APP_ERR_CATEGORY_TIMEOUT = true ∨
    app_Err_IsCategory c APP_ERR_CATEGORY_BUSY = true ∨
    (c = APP_ERR_COMM_QUEUE_FULL ∧ app_Err_IsCategory c APP_ERR_CATEGORY_NOMEM = true) := by
  have hm := (isRecoverable_iff_mem c).mp h
  simp only [List.mem_cons, List.mem_singleton, List.not_mem_nil, or_false] at hm
  rcases hm with rfl | rfl | rfl | rfl | rfl | rfl | rfl <;> decide

/-- C10, amended, at `APP_ERR_UART_TX_TIMEOUT` (`0x03300001`, Timeout) and at
`APP_ERR_COMM_QUEUE_FULL` (`0x01500001`, NoMem). -/
theorem C10_recoverable_categories_witness :
    (app_Err_IsRecoverable 0x03300001 = true ∧
      (app_Err_IsCategory 0x03300001 APP_ERR_CATEGORY_TIMEOUT = true ∨
        app_Err_IsCategory 0x03300001 APP_ERR_CATEGORY_BUSY = true ∨
        (0x03300001 = APP_ERR_COMM_QUEUE_FULL ∧
          app_Err_IsCategory 0x03300001 APP_ERR_CATEGORY_NOMEM = true))) ∧
    (app_Err_IsRecoverable 0x01500001 = true ∧
      (app_Err_IsCategory 0x01500001 APP_ERR_CATEGORY_TIMEOUT = true ∨
        app_Err_IsCategory 0x01500001 APP_ERR_CATEGORY_BUSY = true ∨
        (0x01500001 = APP_ERR_COMM_QUEUE_FULL ∧
          app_Err_IsCategory 0x01500001 APP_ERR_CATEGORY_NOMEM = true))) :=
  ⟨⟨by decide, C10_recoverable_categories 0x03300001 (by decide)⟩,
   ⟨by decide, C10_recoverable_categories 0x01500001 (by decide)⟩⟩

/-! ## The layout of a code -/

/-- C11: each of the 34 error constants the header defines as `M | G | d` has
a small nonzero discriminator: the low 20 bits of the code are the operand
`d`, they are nonzero and at most `0xFFF` (bits 12 to 19 are zero), and the
code is `(code & 0xFF000000) | (code & 0x00F00000) | (code & 0x00000FFF)`. -/
theorem C11_small_nonzero_discriminator :
    declaredConstants.length = 34 ∧
    (∀ k ∈ declaredConstants,
      k.code &&& 0x000FFFFF = k.disc ∧
      k.code &&& 0x000FFFFF ≠ 0 ∧
      k.code &&& 0x000FFFFF ≤ 0xFFF ∧
      k.code &&& 0x000FF000 = 0 ∧
      k.code = (k.code &&& 0xFF000000) ||| (k.code &&& 0x00F00000) |||
        (k.code &&& 0x00000FFF)) := by
  refine ⟨by decide, by decide⟩

/-- C11 at `APP_ERR_PROTO_ESCAPE_ERROR` (`0x02800003`): discriminator 3. -/
theorem C11_small_nonzero_discriminator_witness :
    (⟨APP_ERR_MODULE_PROTOCOL, APP_ERR_CATEGORY_PROTOCOL, 0x003, APP_ERR_PROTO_ESCAPE_ERROR⟩ :
        declared_const) ∈ declaredConstants ∧
    APP_ERR_PROTO_ESCAPE_ERROR &&& 0x000FFFFF = 0x003 ∧
    APP_ERR_PROTO_ESCAPE_ERROR &&& 0x000FFFFF ≠ 0 ∧
    APP_ERR_PROTO_ESCAPE_ERROR &&& 0x000FFFFF ≤ 0xFFF ∧
    APP_ERR_PROTO_ESCAPE_ERROR &&& 0x000FF000 = 0 ∧
    APP_ERR_PROTO_ESCAPE_ERROR =
      (APP_ERR_PROTO_ESCAPE_ERROR &&& 0xFF000000) |||
        (APP_ERR_PROTO_ESCAPE_ERROR &&& 0x00F00000) |||
        (APP_ERR_PROTO_ESCAPE_ERROR &&& 0x00000FFF) :=
  ⟨by decide,
   C11_small_nonzero_discriminator.2
     ⟨APP_ERR_MODULE_PROTOCOL, APP_ERR_CATEGORY_PROTOCOL, 0x003, APP_ERR_PROTO_ESCAPE_ERROR⟩
     (by decide)⟩

/-- C12: the three bit-fields partition every 32-bit code `c`:
`c = (APP_ERR_GET_MODULE(c) << 24) | (APP_ERR_GET_CATEGORY(c) << 20) |
(c & 0x000FFFFF)`, where `APP_ERR_GET_MODULE(c)` is `c >> 24` and lies in
0..255 and `APP_ERR_GET_CATEGORY(c)` is `(c >> 20) & 0xF` and lies in 0..15;
the module mask, the category mask and the field `0x000FFFFF` are pairwise
disjoint and together make `0xFFFFFFFF`. -/
theorem C12_fields_partition (c : Nat) (hc : c < 2 ^ 32) :
    c = (APP_ERR_GET_MODULE c <<< 24) ||| (APP_ERR_GET_CATEGORY c <<< 20) |||
      (c &&& 0x000FFFFF) ∧
    APP_ERR_GET_MODULE c = c >>> 24 ∧ APP_ERR_GET_MODULE c ≤ 255 ∧
    APP_ERR_GET_CATEGORY c = (c >>> 20) &&& 0xF ∧ APP_ERR_GET_CATEGORY c ≤ 15 ∧
    APP_ERR_MODULE_MASK = 0xFF000000 ∧ APP_ERR_CATEGORY_MASK = 0x00F00000 ∧
    APP_ERR_MODULE_MASK &&& APP_ERR_CATEGORY_MASK = 0 ∧
    APP_ERR_MODULE_MASK &&& 0x000FFFFF = 0 ∧
    APP_ERR_CATEGORY_MASK &&& 0x000FFFFF = 0 ∧
    APP_ERR_MODULE_MASK ||| APP_ERR_CATEGORY_MASK ||| 0x000FFFFF = 0xFFFFFFFF := by
  have hm : APP_ERR_GET_MODULE c = c >>> 24 := and_module_mask_shiftRight c hc
  have hg : APP_ERR_GET_CATEGORY c = (c >>> 20) &&& 0xF := and_category_mask_shiftRight c
  refine ⟨fields_decompose c hc, hm, ?_, hg, ?_, rfl, rfl, by decide, by decide, by decide,
    by decide⟩
  · rw [hm, Nat.shiftRight_eq_div_pow]
    omega
  · rw [hg]
    exact Nat.le_of_lt_succ (Nat.and_lt_two_pow _ (by decide : 0xF < 2 ^ 4))

/-- C12 at `0xDEADBEEF`: module `0xDE`, category `0xA`, low field `0xDBEEF`. -/
theorem C12_fields_partition_witness :
    0xDEADBEEF < 2 ^ 32 ∧
    APP_ERR_GET_MODULE 0xDEADBEEF = 0xDE ∧ APP_ERR_GET_CATEGORY 0xDEADBEEF = 0xA ∧
    0xDEADBEEF = (APP_ERR_GET_MODULE 0xDEADBEEF <<< 24) |||
      (APP_ERR_GET_CATEGORY 0xDEADBEEF <<< 20) ||| (0xDEADBEEF &&& 0x000FFFFF) :=
  ⟨by decide, by decide, by decide, (C12_fields_partition 0xDEADBEEF (by decide)).1⟩

/-- C13: zero means success and every other value means failure: for every
code `c`, `APP_ERR_SUCCESS(c)` holds iff `c = 0` and `APP_ERR_FAILED(c)` holds
iff `c ≠ 0`, so exactly one of the two holds; the entry of `APP_ERR_OK` is in
the registry table and is its only entry for which `APP_ERR_SUCCESS` holds,
and every other entry satisfies `APP_ERR_FAILED`. -/
theorem C13_success_failed :
    (∀ c : Nat, (APP_ERR_SUCCESS c = true ↔ c = 0) ∧ (APP_ERR_FAILED c = true ↔ c ≠ 0) ∧
      APP_ERR_SUCCESS c = !APP_ERR_FAILED c) ∧
    (⟨APP_ERR_OK, "APP_ERR_OK", "Success"⟩ : app_err_entry_t) ∈ s_errorTable ∧
    (∀ e ∈ s_errorTable,
      (APP_ERR_SUCCESS e.code = true ↔ e = ⟨APP_ERR_OK, "APP_ERR_OK", "Success"⟩) ∧
      (e ≠ ⟨APP_ERR_OK, "APP_ERR_OK", "Success"⟩ → APP_ERR_FAILED e.code = true)) := by
  refine ⟨?_, by decide, by decide⟩
  intro c
  by_cases h : c = 0 <;> simp [APP_ERR_SUCCESS, APP_ERR_FAILED, APP_ERR_OK, bne, h]

/-- C13 at the entry of `APP_ERR_SENSOR_NOT_FOUND`, which is not the entry of
`APP_ERR_OK`: its code fails. -/
theorem C13_success_failed_witness :
    (⟨APP_ERR_SENSOR_NOT_FOUND, "APP_ERR_SENSOR_NOT_FOUND", "Sensor not found"⟩ :
        app_err_entry_t) ∈ s_errorTable ∧
    APP_ERR_FAILED APP_ERR_SENSOR_NOT_FOUND = true ∧
    APP_ERR_SUCCESS APP_ERR_SENSOR_NOT_FOUND = false :=
  ⟨by decide,
   (C13_success_failed.2.2
     ⟨APP_ERR_SENSOR_NOT_FOUND, "APP_ERR_SENSOR_NOT_FOUND", "Sensor not found"⟩
     (by decide)).2 (by decide),
   by decide⟩

/-! ## Names, generic texts and the fallback buffer -/

/-- The text of one call determines the 32-bit code: two codes whose calls
return the same text, each read when its call returns, are equal. -/
theorem toString_text_injective (a b : Nat) (ha : a < 2 ^ 32) (hb : b < 2 ^ 32)
    (h : app_Err_ToString a = app_Err_ToString b) : a = b := by
  rcases registered_or_not a with ⟨e, he, rfl⟩ | na <;>
    rcases registered_or_not b with ⟨f, hf, rfl⟩ | nb
  · rw [toString_of_mem e he, toString_of_mem f hf] at h
    exact registered_names_injective e he f hf h
  · exfalso
    rw [toString_of_mem e he, toString_of_not_mem b hb nb] at h
    have h1 := registered_name_head e he
    rw [h, fallback_head] at h1
    exact absurd h1 (by decide)
  · exfalso
    rw [toString_of_not_mem a ha na, toString_of_mem f hf] at h
    have h1 := registered_name_head f hf
    rw [← h, fallback_head] at h1
    exact absurd h1 (by decide)
  · rw [toString_of_not_mem a ha na, toString_of_not_mem b hb nb] at h
    have hl := congrArg String.data h
    exact nibbles_injective a b ha hb (List.append_cancel_left hl)

theorem toString_loop_of_mem :
    ∀ e ∈ s_errorTable, app_Err_ToString_loop e.code s_errorTable = some e.name := by
  decide

/-- A call with a registered code returns the name literal and leaves the
buffer alone. -/
theorem toString_call_of_mem (buf : String) (e : app_err_entry_t) (he : e ∈ s_errorTable) :
    app_Err_ToString_call buf e.code = (str_ptr.literal e.name, buf) := by
  unfold app_Err_ToString_call
  rw [toString_loop_of_mem e he]

/-- A call with an unregistered code returns the buffer, which now holds the
fallback text of that code. -/
theorem toString_call_of_not_mem (buf : String) (c : Nat)
    (hnot : ∀ e ∈ s_errorTable, e.code ≠ c) :
    app_Err_ToString_call buf c = (str_ptr.unknownStr, app_Err_ToString c) := by
  unfold app_Err_ToString_call app_Err_ToString
  rw [toString_loop_none c s_errorTable hnot]

/-- The text read at the returned pointer when the call returns is
`app_Err_ToString`, whatever the buffer held before. -/
theorem toString_call_read (buf : String) (c : Nat) :
    readStr (app_Err_ToString_call buf c).2 (app_Err_ToString_call buf c).1
      = app_Err_ToString c := by
  unfold app_Err_ToString_call app_Err_ToString
  cases app_Err_ToString_loop c s_errorTable <;> rfl

/-- C14 as stated fails: `0xDEADBEEF` and `0x00000001` are two different
32-bit codes, neither registered; a call with the first and then a call with
the second both return the buffer `unknownStr`, and the two results read as
strings after the two calls are the same text `"UNKNOWN_ERROR_0x00000001"`. -/
theorem C14_counterexample :
    (0xDEADBEEF : Nat) < 2 ^ 32 ∧ (0x00000001 : Nat) < 2 ^ 32 ∧
    (0xDEADBEEF : Nat) ≠ 0x00000001 ∧
    (app_Err_ToString_call "" 0xDEADBEEF).1 = str_ptr.unknownStr ∧
    (app_Err_ToString_call (app_Err_ToString_call "" 0xDEADBEEF).2 0x00000001).1
      = str_ptr.unknownStr ∧
    readStr (app_Err_ToString_call (app_Err_ToString_call "" 0xDEADBEEF).2 0x00000001).2
        (app_Err_ToString_call "" 0xDEADBEEF).1
      = "UNKNOWN_ERROR_0x00000001" ∧
    readStr (app_Err_ToString_call (app_Err_ToString_call "" 0xDEADBEEF).2 0x00000001).2
        (app_Err_ToString_call (app_Err_ToString_call "" 0xDEADBEEF).2 0x00000001).1
      = "UNKNOWN_ERROR_0x00000001" ∧
    ¬ (∀ a b : Nat, a < 2 ^ 32 → b < 2 ^ 32 →
        readStr (app_Err_ToString_call (app_Err_ToString_call "" a).2 b).2
            (app_Err_ToString_call "" a).1
          = readStr (app_Err_ToString_call (app_Err_ToString_call "" a).2 b).2
            (app_Err_ToString_call (app_Err_ToString_call "" a).2 b).1 →
        a = b) := by
  have ha : app_Err_ToString_call "" 0xDEADBEEF
      = (str_ptr.unknownStr, app_Err_ToString 0xDEADBEEF) :=
    toString_call_of_not_mem "" 0xDEADBEEF (by decide)
  have hb : ∀ buf : String, app_Err_ToString_call buf 0x00000001
      = (str_ptr.unknownStr, app_Err_ToString 0x00000001) :=
    fun buf => toString_call_of_not_mem buf 0x00000001 (by decide)
  have ht : app_Err_ToString 0x00000001 = "UNKNOWN_ERROR_0x00000001" := by
    rw [toString_of_not_mem 0x00000001 (by decide) (by decide)]
    decide
  refine ⟨by decide, by decide, by decide, ?_, ?_, ?_, ?_, ?_⟩
  · rw [ha]
  · rw [hb]
  · rw [hb, ha]
    exact ht
  · rw [hb]
    exact ht
  · intro hall
    have hne : (0xDEADBEEF : Nat) ≠ 0x00000001 := by decide
    apply hne
    apply hall 0xDEADBEEF 0x00000001 (by decide) (by decide)
    rw [hb, ha]

/-- C14, amended: on the 32-bit codes `app_Err_ToString` is injective in the
text of each call read when that call returns: if the string at the pointer
returned for `a`, read on return, is the string at the pointer returned for
`b`, read on return, then `a = b`, whatever the buffer held before either
call.  Read after a call with `a` followed by a call with `b`, the two
results are the same string exactly when `a = b` or neither code is
registered (both results are then the one buffer `unknownStr`). -/
theorem C14_toString_injective_on_return (buf : String) (a b : Nat)
    (ha : a < 2 ^ 32) (hb : b < 2 ^ 32) :
    (∀ buf2 : String,
      readStr (app_Err_ToString_call buf a).2 (app_Err_ToString_call buf a).1
        = readStr (app_Err_ToString_call buf2 b).2 (app_Err_ToString_call buf2 b).1 →
      a = b) ∧
    (readStr (app_Err_ToString_call (app_Err_ToString_call buf a).2 b).2
        (app_Err_ToString_call buf a).1
      = readStr (app_Err_ToString_call (app_Err_ToString_call buf a).2 b).2
        (app_Err_ToString_call (app_Err_ToString_call buf a).2 b).1 ↔
      a = b ∨ ((∀ e ∈ s_errorTable, e.code ≠ a) ∧ (∀ e ∈ s_errorTable, e.code ≠ b))) := by
  constructor
  · intro buf2 h
    rw [toString_call_read, toString_call_read] at h
    exact toString_text_injective a b ha hb h
  · rcases registered_or_not a with ⟨e, he, rfl⟩ | na <;>
      rcases registered_or_not b with ⟨f, hf, rfl⟩ | nb
    · rw [toString_call_of_mem _ f hf, toString_call_of_mem _ e he]
      show e.name = f.name ↔ _
      constructor
      · intro h
        exact Or.inl (registered_names_injective e he f hf h)
      · rintro (h | ⟨h, -⟩)
        · have hn := toString_of_mem e he
          rw [h, toString_of_mem f hf] at hn
          exact hn.symm
        · exact absurd rfl (h e he)
    · rw [toString_call_of_not_mem _ b nb, toString_call_of_mem _ e he]
      show e.name = app_Err_ToString b ↔ _
      constructor
      · intro h
        exfalso
        have h1 := registered_name_head e he
        rw [h, toString_of_not_mem b hb nb, fallback_head] at h1
        exact absurd h1 (by decide)
      · rintro (h | ⟨h, -⟩)
        · exact absurd h (nb e he)
        · exact absurd rfl (h e he)
    · rw [toString_call_of_mem _ f hf, toString_call_of_not_mem _ a na]
      show app_Err_ToString a = f.name ↔ _
      constructor
      · intro h
        exfalso
        have h1 := registered_name_head f hf
        rw [← h, toString_of_not_mem a ha na, fallback_head] at h1
        exact absurd h1 (by decide)
      · rintro (h | ⟨-, h⟩)
        · exact absurd h.symm (na f hf)
        · exact absurd rfl (h f hf)
    · rw [toString_call_of_not_mem _ b nb, toString_call_of_not_mem _ a na]
      exact ⟨fun _ => Or.inr ⟨na, nb⟩, fun _ => rfl⟩

/-- C14, amended, at the unregistered codes `0xDE000000 | 0x00ADBEEF` and
`0xDEADBEEF`, whose calls return the same text and which are equal; and at
`0xDEADBEEF` followed by `0x00000001`, both unregistered, whose results read
after the two calls are the same string. -/
theorem C14_toString_injective_on_return_witness :
    ((0xDE000000 ||| 0x00ADBEEF) < 2 ^ 32 ∧ 0xDEADBEEF < 2 ^ 32 ∧
      (0xDE000000 ||| 0x00ADBEEF) = 0xDEADBEEF) ∧
    (0xDEADBEEF < 2 ^ 32 ∧ 0x00000001 < 2 ^ 32 ∧
      readStr (app_Err_ToString_call (app_Err_ToString_call "" 0xDEADBEEF).2 0x00000001).2
          (app_Err_ToString_call "" 0xDEADBEEF).1
        = readStr (app_Err_ToString_call (app_Err_ToString_call "" 0xDEADBEEF).2 0x00000001).2
          (app_Err_ToString_call (app_Err_ToString_call "" 0xDEADBEEF).2 0x00000001).1) :=
  ⟨⟨by decide, by decide,
    (C14_toString_injective_on_return "" (0xDE000000 ||| 0x00ADBEEF) 0xDEADBEEF
      (by decide) (by decide)).1 ""
      (congrArg (fun c => readStr (app_Err_ToString_call "" c).2 (app_Err_ToString_call "" c).1)
        (by decide))⟩,
   ⟨by decide, by decide,
    (C14_toString_injective_on_return "" 0xDEADBEEF 0x00000001 (by decide) (by decide)).2.mpr
      (Or.inr ⟨by decide, by decide⟩)⟩⟩

/-- C15: the generic texts identify the unregistered codes exactly: for every
32-bit code `c`, `app_Err_GetDescription c` is `"Unknown error code"` if and
only if `c` is the code of no entry of the registry table, if and only if
`app_Err_ToString c` begins with `"UNKNOWN_ERROR_0x"`; no entry of the table
has the description `"Unknown error code"` or a name that begins with
`"UNKNOWN_ERROR_0x"`. -/
theorem C15_generic_texts (c : Nat) (hc : c < 2 ^ 32) :
    (app_Err_GetDescription c = "Unknown error code" ↔ ∀ e ∈ s_errorTable, e.code ≠ c) ∧
    ((∀ e ∈ s_errorTable, e.code ≠ c) ↔
      "UNKNOWN_ERROR_0x".toList <+: (app_Err_ToString c).toList) ∧
    (∀ e ∈ s_errorTable, e.description ≠ "Unknown error code" ∧
      ¬ ("UNKNOWN_ERROR_0x".toList <+: e.name.toList)) := by
  refine ⟨?_, ?_, fun e he =>
    ⟨registered_description_ne e he, registered_name_not_fallback e he⟩⟩
  · rcases registered_or_not c with ⟨e, he, rfl⟩ | hnot
    · constructor
      · intro h
        rw [getDescription_of_mem e he] at h
        exact absurd h (registered_description_ne e he)
      · intro h
        exact absurd rfl (h e he)
    · exact ⟨fun _ => hnot, fun _ => getDescription_of_not_mem c hnot⟩
  · rcases registered_or_not c with ⟨e, he, rfl⟩ | hnot
    · constructor
      · intro h
        exact absurd rfl (h e he)
      · intro h
        rw [toString_of_mem e he] at h
        exact absurd h (registered_name_not_fallback e he)
    · refine ⟨fun _ => ?_, fun _ => hnot⟩
      rw [toString_of_not_mem c hc hnot]
      exact List.prefix_append _ _

/-- C15 at `0xDEADBEEF` (not registered) and at `0x00A00002`
(`APP_ERR_UNKNOWN`, registered, described as `"Unknown error"`). -/
theorem C15_generic_texts_witness :
    (0xDEADBEEF < 2 ^ 32 ∧
      (app_Err_GetDescription 0xDEADBEEF = "Unknown error code" ↔
        ∀ e ∈ s_errorTable, e.code ≠ 0xDEADBEEF) ∧
      "UNKNOWN_ERROR_0x".toList <+: (app_Err_ToString 0xDEADBEEF).toList) ∧
    (0x00A00002 < 2 ^ 32 ∧ app_Err_GetDescription 0x00A00002 ≠ "Unknown error code" ∧
      ¬ ("UNKNOWN_ERROR_0x".toList <+: (app_Err_ToString 0x00A00002).toList)) :=
  ⟨⟨by decide, (C15_generic_texts 0xDEADBEEF (by decide)).1,
    (C15_generic_texts 0xDEADBEEF (by decide)).2.1.mp (by decide)⟩,
   ⟨by decide, by decide,
    fun h => absurd ((C15_generic_texts 0x00A00002 (by decide)).2.1.mpr h)
      (fun hall => hall ⟨0x00A00002, "APP_ERR_UNKNOWN", "Unknown error"⟩ (by decide) rfl)⟩⟩

/-- C16: no code belongs to the User module: for every code `c`,
`app_Err_IsModule(c, APP_ERR_MODULE_USER)` is false, `APP_ERR_MODULE_USER`
being `0xFF0000FF`, which has bits outside the module mask `0xFF000000`; more
generally `app_Err_IsModule(c, m)` can be true only when
`(m & 0x00FFFFFF) = 0`. -/
theorem C16_user_module_empty (c m : Nat) :
    app_Err_IsModule c APP_ERR_MODULE_USER = false ∧
    (app_Err_IsModule c m = true → m &&& 0x00FFFFFF = 0) ∧
    APP_ERR_MODULE_USER = 0xFF0000FF ∧ APP_ERR_MODULE_MASK = 0xFF000000 ∧
    APP_ERR_MODULE_USER &&& 0x00FFFFFF ≠ 0 := by
  have hgen : ∀ m : Nat, app_Err_IsModule c m = true → m &&& 0x00FFFFFF = 0 := by
    intro m hm
    unfold app_Err_IsModule at hm
    rw [beq_iff_eq] at hm
    have hz : APP_ERR_MODULE_MASK &&& 0x00FFFFFF = 0 := by decide
    rw [← hm, Nat.and_assoc, hz, Nat.and_zero]
  refine ⟨?_, hgen m, rfl, rfl, by decide⟩
  cases hu : app_Err_IsModule c APP_ERR_MODULE_USER with
  | false => rfl
  | true => exact absurd (hgen _ hu) (by decide)

/-- C16 at the code `0xFF0000FF` and the module value `0xFF000000`, for which
`app_Err_IsModule` holds. -/
theorem C16_user_module_empty_witness :
    app_Err_IsModule 0xFF0000FF APP_ERR_MODULE_USER = false ∧
    app_Err_IsModule 0xFF0000FF 0xFF000000 = true ∧
    (0xFF000000 : Nat) &&& 0x00FFFFFF = 0 :=
  ⟨(C16_user_module_empty 0xFF0000FF 0xFF000000).1, by decide,
   (C16_user_module_empty 0xFF0000FF 0xFF000000).2.1 (by decide)⟩

/-- C17: every recoverable code is a registered failure code: for every code
`c` with `app_Err_IsRecoverable c` true, `c` is not zero (so `APP_ERR_FAILED`
holds of it), `c` is the code of an entry of the registry table,
`app_Err_ToString c` is that entry's name, and `app_Err_GetDescription c` is
that entry's description and is not `"Unknown error code"`. -/
theorem C17_recoverable_registered (c : Nat) (h : app_Err_IsRecoverable c = true) :
    c ≠ 0 ∧ APP_ERR_FAILED c = true ∧
    (∃ e ∈ s_errorTable, e.code = c ∧ app_Err_ToString c = e.name ∧
      app_Err_GetDescription c = e.description) ∧
    app_Err_GetDescription c ≠ "Unknown error code" := by
  have hm := (isRecoverable_iff_mem c).mp h
  simp only [List.mem_cons, List.mem_singleton, List.not_mem_nil, or_false] at hm
  rcases hm with rfl | rfl | rfl | rfl | rfl | rfl | rfl <;>
    exact ⟨by decide, by decide, by decide, by decide⟩

/-- C17 at `APP_ERR_COMM_QUEUE_FULL` (`0x01500001`); and `APP_ERR_OK` is not
recoverable. -/
theorem C17_recoverable_registered_witness :
    app_Err_IsRecoverable 0x01500001 = true ∧
    app_Err_ToString 0x01500001 = "APP_ERR_COMM_QUEUE_FULL" ∧
    app_Err_GetDescription 0x01500001 ≠ "Unknown error code" ∧
    app_Err_IsRecoverable APP_ERR_OK = false :=
  ⟨by decide, by decide, (C17_recoverable_registered 0x01500001 (by decide)).2.2.2,
   by decide⟩

/-- C18: the fallback text fits the scratch buffer of 32 bytes: for every
32-bit code `c`, the text `"UNKNOWN_ERROR_0x%08lX"` formatted with `c` has
exactly 24 characters, which is at most 31, so `snprintf` stores it whole;
when `c` is the code of no entry of the registry table this text is what
`app_Err_ToString c` returns; and for every 32-bit code the returned string
is not empty. -/
theorem C18_fallback_fits (c : Nat) (hc : c < 2 ^ 32) :
    ("UNKNOWN_ERROR_0x".toList ++ fmtZeroPadUpperHex 8 c).length = 24 ∧
    unknownStrSize = 32 ∧ 24 ≤ unknownStrSize - 1 ∧
    snprintf unknownStrSize ("UNKNOWN_ERROR_0x".toList ++ fmtZeroPadUpperHex 8 c)
      = String.mk ("UNKNOWN_ERROR_0x".toList ++ fmtZeroPadUpperHex 8 c) ∧
    ((∀ e ∈ s_errorTable, e.code ≠ c) →
      app_Err_ToString c = String.mk ("UNKNOWN_ERROR_0x".toList ++ fmtZeroPadUpperHex 8 c) ∧
      (app_Err_ToString c).length = 24) ∧
    app_Err_ToString c ≠ "" := by
  have hlen := fallback_text_length c hc
  have hfit : ("UNKNOWN_ERROR_0x".toList ++ fmtZeroPadUpperHex 8 c).length
      ≤ unknownStrSize - 1 := by
    rw [hlen]; decide
  have hun : ∀ hnot : (∀ e ∈ s_errorTable, e.code ≠ c),
      app_Err_ToString c
        = String.mk ("UNKNOWN_ERROR_0x".toList ++ fmtZeroPadUpperHex 8 c) := by
    intro hnot
    rw [toString_of_not_mem c hc hnot, fallback_text_eq c hc]
  refine ⟨hlen, rfl, by decide, ?_, ?_, ?_⟩
  · rw [snprintf, List.take_of_length_le hfit]
  · intro hnot
    refine ⟨hun hnot, ?_⟩
    rw [hun hnot]
    exact hlen
  · rcases registered_or_not c with ⟨e, he, rfl⟩ | hnot
    · rw [toString_of_mem e he]
      exact registered_name_ne_empty e he
    · intro hempty
      have hl : (app_Err_ToString c).length = 24 := by
        rw [hun hnot]
        exact hlen
      rw [hempty] at hl
      exact absurd hl (by decide)

/-- C18 at `0x00000001`, which is not registered: the text has 24
characters and is `"UNKNOWN_ERROR_0x00000001"`. -/
theorem C18_fallback_fits_witness :
    0x00000001 < 2 ^ 32 ∧ (∀ e ∈ s_errorTable, e.code ≠ 0x00000001) ∧
    (app_Err_ToString 0x00000001).length = 24 ∧
    app_Err_ToString 0x00000001 ≠ "" :=
  ⟨by decide, by decide,
   ((C18_fallback_fits 0x00000001 (by decide)).2.2.2.2.1 (by decide)).2,
   (C18_fallback_fits 0x00000001 (by decide)).2.2.2.2.2⟩

end ErrorCode
